import Mathlib

/-!
Shallow embedding of `scripts/build.ts` from the perf-doctor repository:
a cross-platform build orchestrator driving the Bun compiler.

External effects (the Bun shell invocations, `existsSync`, `mkdirSync`,
file sizes, `rm -rf`) are modelled with an environment of oracles (`Env`)
plus an explicit state (`St`) recording the build directory, the trace of
compiler invocations, the size reports and the console messages.  A thrown
JavaScript exception is modelled as `Except.error`; a function that can
only resolve is total.
-/

set_option autoImplicit false

namespace PerfDoctor

/-- One catalog entry: `interface Platform` of `build.ts`. -/
structure Platform where
  os : String
  arch : String
  target : String
  extension : String
deriving DecidableEq, Repr

/-- The static platform catalog `PLATFORMS` of `build.ts`, in declared order. -/
def PLATFORMS : List Platform :=
  [⟨"windows", "x64", "bun-windows-x64", ".exe"⟩,
   ⟨"windows", "arm64", "bun-windows-arm64", ".exe"⟩,
   ⟨"darwin", "x64", "bun-darwin-x64", ""⟩,
   ⟨"darwin", "arm64", "bun-darwin-arm64", ""⟩,
   ⟨"linux", "x64", "bun-linux-x64", ""⟩,
   ⟨"linux", "arm64", "bun-linux-arm64", ""⟩]

/-- The `osMap` table inside `detectCurrentPlatform`: a lookup in a
`Record<string,string>` returns `undefined` (here `none`) off the table. -/
def osMap (s : String) : Option String :=
  match s with
  | "win32" => some "windows"
  | "darwin" => some "darwin"
  | "linux" => some "linux"
  | _ => none

/-- The `archMap` table inside `detectCurrentPlatform`. -/
def archMap (s : String) : Option String :=
  match s with
  | "x64" => some "x64"
  | "arm64" => some "arm64"
  | "ia32" => some "x86"
  | _ => none

/-- `detectCurrentPlatform`: host `process.platform` / `process.arch` are
passed as the two arguments; returns `null` (`none`) unless both map and the
normalized pair has a catalog entry. -/
def detectCurrentPlatform (osRaw archRaw : String) : Option Platform :=
  match osMap osRaw, archMap archRaw with
  | some currentOS, some currentArch =>
    PLATFORMS.find? fun p => p.os == currentOS && p.arch == currentArch
  | _, _ => none

/-- Log levels of the `logger` object (plus `plain` for bare `console.log`). -/
inductive LogLevel
  | info
  | success
  | warning
  | error
  | build
  | clean
  | plain
deriving DecidableEq, Repr

/-- One recorded invocation of the external compiler (`bun build --compile`):
the `--target` argument when present, and the `--outfile` argument. -/
structure CompileCall where
  target : Option String
  outfile : String
deriving DecidableEq, Repr

/-- Observable process state: whether `build/` exists, the trace of compiler
invocations, the size reports read from disk, and the console messages. -/
structure St where
  buildDirExists : Bool
  calls : List CompileCall
  sizeReports : List (String × Nat)
  msgs : List (LogLevel × String)
deriving DecidableEq, Repr

/-- Oracle environment for the external effects. -/
structure Env where
  /-- `some e` when `mkdirSync("build", {recursive:true})` throws `e`. -/
  mkdirError : Option String
  /-- Result of a `bun build --compile` shell invocation: `.error e` when the
  awaited promise rejects, `.ok n` when it resolves with exit code `n`. -/
  compileResult : CompileCall → Except String Nat
  /-- `existsSync` on an artifact path after a build. -/
  fileExists : String → Bool
  /-- `Bun.file(path).size`. -/
  fileSize : String → Nat
  /-- Result of `rm -rf build` (run with `.nothrow()`). -/
  rmResult : Except String Nat

/-- Append one console message. -/
def addMsg (lvl : LogLevel) (m : String) (s : St) : St :=
  { s with msgs := s.msgs ++ [(lvl, m)] }

/-- Append one compiler invocation to the trace. -/
def recordCall (c : CompileCall) (s : St) : St :=
  { s with calls := s.calls ++ [c] }

/-- `ensureBuildDir`: `existsSync` then `mkdirSync` (which may throw). -/
def ensureBuildDir (env : Env) (s : St) : Except String St :=
  if s.buildDirExists then .ok s
  else
    match env.mkdirError with
    | some e => .error e
    | none => .ok (addMsg .info "创建构建目录: build/" { s with buildDirExists := true })

/-- The deterministic artifact path `build/pref-doctor-<os>-<arch><ext>`
computed at the top of `buildPlatform`. -/
def outputName (p : Platform) : String :=
  "build/pref-doctor-" ++ p.os ++ "-" ++ p.arch ++ p.extension

/-- The compiler invocation `buildPlatform` performs for a platform. -/
def platformCall (p : Platform) : CompileCall :=
  ⟨some p.target, outputName p⟩

/-- `buildPlatform`: one per-platform build.  Note that `ensureBuildDir()` is
called before the `try` block, so a directory-creation throw propagates;
everything inside the `try` is caught and turned into `false`. -/
def buildPlatform (env : Env) (p : Platform) (s : St) : Except String (Bool × St) :=
  match ensureBuildDir env s with
  | .error e => .error e
  | .ok s =>
    let out := outputName p
    let s := addMsg .build ("正在构建 " ++ p.os ++ "/" ++ p.arch ++ " 平台...") s
    let s := recordCall ⟨some p.target, out⟩ s
    match env.compileResult ⟨some p.target, out⟩ with
    | .error e => .ok (false, addMsg .error ("构建出错: " ++ e) s)
    | .ok exitCode =>
      if exitCode == 0 then
        let s := addMsg .success ("成功构建: " ++ out) s
        let s :=
          if env.fileExists out then
            addMsg .info ("文件大小: " ++ toString (env.fileSize out) ++ " 字节")
              { s with sizeReports := s.sizeReports ++ [(out, env.fileSize out)] }
          else s
        .ok (true, s)
      else
        .ok (false, addMsg .error ("构建失败: " ++ p.os ++ "/" ++ p.arch) s)

/-- Whether the compiler reports success for a platform (exit code `0`,
promise resolved), as observed by `buildPlatform`. -/
def platformSucceeds (env : Env) (p : Platform) : Bool :=
  match env.compileResult (platformCall p) with
  | .error _ => false
  | .ok exitCode => exitCode == 0

/-- `buildCurrentPlatform`: detect the host; on detection failure fall back to
a bare build (`--outfile=build/pref-doctor`, no `--target`) whose whole body,
`ensureBuildDir` included, sits inside a `try`. -/
def buildCurrentPlatform (env : Env) (osRaw archRaw : String) (s : St) :
    Except String (Bool × St) :=
  match detectCurrentPlatform osRaw archRaw with
  | none =>
    let s := addMsg .warning "无法检测当前平台，使用默认构建" s
    match ensureBuildDir env s with
    | .error e => .ok (false, addMsg .error ("默认构建失败: " ++ e) s)
    | .ok s =>
      let s := recordCall ⟨none, "build/pref-doctor"⟩ s
      match env.compileResult ⟨none, "build/pref-doctor"⟩ with
      | .error e => .ok (false, addMsg .error ("默认构建失败: " ++ e) s)
      | .ok _ => .ok (true, addMsg .success "默认构建完成" s)
  | some p =>
    let s := addMsg .info ("检测到当前平台: " ++ p.os ++ "/" ++ p.arch) s
    buildPlatform env p s

/-- The `for` loop of `buildAllPlatforms`, carrying `successCount`.  An
exception from `buildPlatform` aborts the loop (the `await` rethrows). -/
def buildAllLoop (env : Env) (ps : List Platform) (successCount : Nat) (s : St) :
    Except String (Nat × St) :=
  match ps with
  | [] => .ok (successCount, s)
  | p :: rest =>
    match buildPlatform env p s with
    | .error e => .error e
    | .ok (ok, s₂) =>
      buildAllLoop env rest (if ok then successCount + 1 else successCount)
        (addMsg .plain "" s₂)

/-- `buildAllPlatforms`: build every catalog entry in order, tally, and report
success only when every platform succeeded. -/
def buildAllPlatforms (env : Env) (s : St) : Except String (Bool × St) :=
  let s := addMsg .info "开始构建所有支持的平台..." s
  match buildAllLoop env PLATFORMS 0 s with
  | .error e => .error e
  | .ok (successCount, s) =>
    let totalCount := PLATFORMS.length
    let s := addMsg .info
      ("构建完成: " ++ toString successCount ++ "/" ++ toString totalCount ++ " 个平台成功") s
    if successCount == totalCount then .ok (true, addMsg .success "所有平台构建成功！" s)
    else .ok (false, addMsg .warning "部分平台构建失败" s)

/-- JavaScript `"…".split("-")` on a character list: splits at every dash,
keeping empty segments, and returns `[""]` on the empty string. -/
def splitDash (cs : List Char) (acc : List Char) : List String :=
  match cs with
  | [] => [String.mk acc.reverse]
  | c :: rest =>
    if c = '-' then String.mk acc.reverse :: splitDash rest []
    else splitDash rest (c :: acc)

/-- `platformSpec.split("-")` as used by `buildSpecificPlatform`. -/
def splitOnDash (s : String) : List String := splitDash s.data []

/-- The `PLATFORMS.forEach` console loop printing every valid specifier. -/
def printSupportedList (s : St) : St :=
  PLATFORMS.foldl (fun s p => addMsg .plain ("  - " ++ p.os ++ "-" ++ p.arch) s) s

/-- Body of `buildSpecificPlatform` after `platformSpec.split("-")`:
`const [os, arch] = parts` reads only the first two components (`arch` is
`undefined` when absent). -/
def buildSpecificCore (env : Env) (spec : String) (parts : List String) (s : St) :
    Except String (Bool × St) :=
  let os := parts.getD 0 ""
  let arch : Option String := parts.get? 1
  match PLATFORMS.find? (fun p => p.os == os && some p.arch == arch) with
  | none =>
    let s := addMsg .error ("不支持的平台: " ++ spec) s
    let s := addMsg .info "支持的平台:" s
    .ok (false, printSupportedList s)
  | some p => buildPlatform env p s

/-- `buildSpecificPlatform`: parse the `<os>-<arch>` specifier and build. -/
def buildSpecificPlatform (env : Env) (spec : String) (s : St) :
    Except String (Bool × St) :=
  buildSpecificCore env spec (splitOnDash spec) s

/-- `cleanBuilds`: `rm -rf build` with `.nothrow()` inside a `try`/`catch`
that downgrades a rejection to a warning; never throws past its boundary. -/
def cleanBuilds (env : Env) (s : St) : St :=
  let s := addMsg .clean "清理构建文件..." s
  match env.rmResult with
  | .error e => addMsg .warning ("清理时出现错误: " ++ e) s
  | .ok exitCode =>
    let s := if exitCode == 0 then { s with buildDirExists := false } else s
    addMsg .success "清理完成" s

/-- `showHelp`: usage text on the console. -/
def showHelp (s : St) : St :=
  addMsg .plain "使用方法: bun run scripts/build.ts [选项]" s

/-- `listPlatforms`: print each catalog entry, no build. -/
def listPlatforms (s : St) : St :=
  PLATFORMS.foldl
    (fun s p =>
      let description :=
        if p.os == "darwin" then
          if p.arch == "x64" then " (Intel)" else " (Apple Silicon)"
        else ""
      addMsg .plain ("  " ++ p.os ++ "-" ++ p.arch ++ description) s)
    (addMsg .info "支持的平台:" s)

/-- `main`: dispatch on the leading CLI token.  Returns the process exit code
(`process.exit` or natural termination) or `.error` for an uncaught throw.
The results of the build functions are awaited and discarded.  The guard
`if (!args[1])` on the `-p` branch is falsy both for a missing and for an
empty-string platform argument, so both exit 1 with the same error. -/
def main (env : Env) (osRaw archRaw : String) (args : List String) (s : St) :
    Except String (Nat × St) :=
  let s := addMsg .plain "Pref Doctor 多平台构建脚本" s
  match args.get? 0 with
  | some "-h" | some "--help" => .ok (0, showHelp s)
  | some "-a" | some "--all" =>
    match buildAllPlatforms env s with
    | .error e => .error e
    | .ok (_, s) => .ok (0, s)
  | some "-c" | some "--current" =>
    match buildCurrentPlatform env osRaw archRaw s with
    | .error e => .error e
    | .ok (_, s) => .ok (0, s)
  | some "-p" | some "--platform" =>
    match args.get? 1 with
    | none => .ok (1, addMsg .error "请指定平台 (格式: os-arch)" s)
    | some spec =>
      if spec = "" then .ok (1, addMsg .error "请指定平台 (格式: os-arch)" s)
      else
        match buildSpecificPlatform env spec s with
        | .error e => .error e
        | .ok (_, s) => .ok (0, s)
  | some "--clean" => .ok (0, cleanBuilds env s)
  | some "--list" => .ok (0, listPlatforms s)
  | none =>
    match buildCurrentPlatform env osRaw archRaw s with
    | .error e => .error e
    | .ok (_, s) => .ok (0, s)
  | some other => .ok (1, showHelp (addMsg .error ("未知选项: " ++ other) s))

/-- The `main().catch(...)` wrapper: an uncaught throw prints a message and
exits `1`; otherwise the exit code of `main` stands. -/
def runScript (env : Env) (osRaw archRaw : String) (args : List String) (s : St) :
    Nat × St :=
  match main env osRaw archRaw args s with
  | .ok r => r
  | .error e => (1, addMsg .error ("脚本执行失败: " ++ e) s)

/-- Fresh process state: no `build/` directory, empty traces. -/
def st0 : St :=
  { buildDirExists := false, calls := [], sizeReports := [], msgs := [] }

/-- A benign environment: every external effect succeeds. -/
def envOk : Env :=
  { mkdirError := none
    compileResult := fun _ => .ok 0
    fileExists := fun _ => true
    fileSize := fun _ => 55000000
    rmResult := .ok 0 }

/-- An environment where every compiler invocation rejects. -/
def envAllFail : Env :=
  { mkdirError := none
    compileResult := fun _ => .error "bun build failed"
    fileExists := fun _ => false
    fileSize := fun _ => 0
    rmResult := .ok 0 }

/-- An environment where `mkdirSync` throws (e.g. permission denied). -/
def envMkdirFail : Env :=
  { mkdirError := some "EACCES: permission denied"
    compileResult := fun _ => .ok 0
    fileExists := fun _ => true
    fileSize := fun _ => 55000000
    rmResult := .ok 0 }

/-- An environment where `rm -rf build` rejects. -/
def envRmFail : Env :=
  { mkdirError := none
    compileResult := fun _ => .ok 0
    fileExists := fun _ => true
    fileSize := fun _ => 55000000
    rmResult := .error "EBUSY: resource busy" }

/-- An environment where the compiler reports success but writes no artifact. -/
def envNoArtifact : Env :=
  { mkdirError := none
    compileResult := fun _ => .ok 0
    fileExists := fun _ => false
    fileSize := fun _ => 0
    rmResult := .ok 0 }

/-! ## Basic state lemmas -/

@[simp] theorem addMsg_buildDirExists (lvl : LogLevel) (m : String) (s : St) :
    (addMsg lvl m s).buildDirExists = s.buildDirExists := rfl

@[simp] theorem addMsg_calls (lvl : LogLevel) (m : String) (s : St) :
    (addMsg lvl m s).calls = s.calls := rfl

@[simp] theorem addMsg_sizeReports (lvl : LogLevel) (m : String) (s : St) :
    (addMsg lvl m s).sizeReports = s.sizeReports := rfl

@[simp] theorem addMsg_msgs (lvl : LogLevel) (m : String) (s : St) :
    (addMsg lvl m s).msgs = s.msgs ++ [(lvl, m)] := rfl

@[simp] theorem recordCall_buildDirExists (c : CompileCall) (s : St) :
    (recordCall c s).buildDirExists = s.buildDirExists := rfl

@[simp] theorem recordCall_calls (c : CompileCall) (s : St) :
    (recordCall c s).calls = s.calls ++ [c] := rfl

@[simp] theorem recordCall_sizeReports (c : CompileCall) (s : St) :
    (recordCall c s).sizeReports = s.sizeReports := rfl

@[simp] theorem recordCall_msgs (c : CompileCall) (s : St) :
    (recordCall c s).msgs = s.msgs := rfl

/-! ## `ensureBuildDir` and `buildPlatform` -/

theorem ensureBuildDir_spec (env : Env) (s : St)
    (hdir : s.buildDirExists = true ∨ env.mkdirError = none) :
    ∃ s₁, ensureBuildDir env s = .ok s₁ ∧ s₁.buildDirExists = true
      ∧ s₁.calls = s.calls ∧ s₁.sizeReports = s.sizeReports
      ∧ ∀ m ∈ s.msgs, m ∈ s₁.msgs := by
  by_cases hb : s.buildDirExists = true
  · exact ⟨s, by simp [ensureBuildDir, hb], hb, rfl, rfl, fun m hm => hm⟩
  · have hmk : env.mkdirError = none := by
      rcases hdir with h | h
      · exact absurd h hb
      · exact h
    refine ⟨addMsg .info "创建构建目录: build/" { s with buildDirExists := true },
      ?_, rfl, rfl, rfl, ?_⟩
    · simp [ensureBuildDir, hb, hmk]
    · intro m hm
      simp only [addMsg_msgs, List.mem_append]
      exact Or.inl hm

theorem buildPlatform_spec (env : Env) (p : Platform) (s : St)
    (hdir : s.buildDirExists = true ∨ env.mkdirError = none) :
    ∃ s', buildPlatform env p s = .ok (platformSucceeds env p, s')
      ∧ s'.buildDirExists = true
      ∧ s'.calls = s.calls ++ [platformCall p]
      ∧ (∀ m ∈ s.msgs, m ∈ s'.msgs)
      ∧ (∀ e, env.compileResult (platformCall p) = .error e →
          (LogLevel.error, "构建出错: " ++ e) ∈ s'.msgs) := by
  obtain ⟨s₁, hrun, hb, hc, hsz, hm⟩ := ensureBuildDir_spec env s hdir
  unfold buildPlatform
  rw [hrun]
  rcases hcomp : env.compileResult ⟨some p.target, outputName p⟩ with e | n
  · have hps : platformSucceeds env p = false := by
      simp [platformSucceeds, platformCall, hcomp]
    rw [hps]
    simp only [hcomp]
    refine ⟨_, rfl, ?_, ?_, ?_, ?_⟩
    · simp [hb]
    · simp [hc, platformCall]
    · intro m hmem
      simp only [addMsg_msgs, recordCall_msgs, List.mem_append]
      exact Or.inl (Or.inl (hm m hmem))
    · intro e' he'
      rw [show platformCall p = ⟨some p.target, outputName p⟩ from rfl, hcomp] at he'
      cases he'
      simp
  · have hps : platformSucceeds env p = (n == 0) := by
      simp [platformSucceeds, platformCall, hcomp]
    rw [hps]
    simp only [hcomp]
    by_cases hn : (n == 0) = true
    · by_cases hf : env.fileExists (outputName p) = true
      · rw [if_pos hn, if_pos hf, hn]
        refine ⟨_, rfl, ?_, ?_, ?_, ?_⟩
        · simp [hb]
        · simp [hc, platformCall]
        · intro m hmem
          simp only [addMsg_msgs, recordCall_msgs, List.mem_append]
          exact Or.inl (Or.inl (Or.inl (hm m hmem)))
        · intro e' he'
          rw [show platformCall p = ⟨some p.target, outputName p⟩ from rfl, hcomp] at he'
          cases he'
      · rw [if_pos hn, if_neg hf, hn]
        refine ⟨_, rfl, ?_, ?_, ?_, ?_⟩
        · simp [hb]
        · simp [hc, platformCall]
        · intro m hmem
          simp only [addMsg_msgs, recordCall_msgs, List.mem_append]
          exact Or.inl (Or.inl (hm m hmem))
        · intro e' he'
          rw [show platformCall p = ⟨some p.target, outputName p⟩ from rfl, hcomp] at he'
          cases he'
    · rw [if_neg hn]
      rw [Bool.not_eq_true] at hn
      rw [hn]
      refine ⟨_, rfl, ?_, ?_, ?_, ?_⟩
      · simp [hb]
      · simp [hc, platformCall]
      · intro m hmem
        simp only [addMsg_msgs, recordCall_msgs, List.mem_append]
        exact Or.inl (Or.inl (hm m hmem))
      · intro e' he'
        rw [show platformCall p = ⟨some p.target, outputName p⟩ from rfl, hcomp] at he'
        cases he'

/-! ## Claim C5: the platform detector -/

/-- C5: `detectCurrentPlatform` is a pure function of the host OS and arch
identifiers and the static catalog: (1) whenever both raw identifiers
normalize to the (os, arch) of a catalog entry, it returns exactly that
entry; (2)–(3) if either raw identifier is outside its translation table the
result is `none` regardless of the other identifier; (4) if both normalize
but the normalized pair has no catalog entry, the result is also `none`. -/
theorem detector_pure_lookup :
    (∀ osRaw archRaw p, p ∈ PLATFORMS → osMap osRaw = some p.os →
        archMap archRaw = some p.arch → detectCurrentPlatform osRaw archRaw = some p)
    ∧ (∀ osRaw archRaw, osMap osRaw = none → detectCurrentPlatform osRaw archRaw = none)
    ∧ (∀ osRaw archRaw, archMap archRaw = none → detectCurrentPlatform osRaw archRaw = none)
    ∧ (∀ osRaw archRaw os arch, osMap osRaw = some os → archMap archRaw = some arch →
        (∀ p ∈ PLATFORMS, ¬(p.os = os ∧ p.arch = arch)) →
        detectCurrentPlatform osRaw archRaw = none) := by
  refine ⟨?_, ?_, ?_, ?_⟩
  · intro osRaw archRaw p hp h1 h2
    unfold detectCurrentPlatform
    rw [h1, h2]
    fin_cases hp <;> rfl
  · intro osRaw archRaw h
    unfold detectCurrentPlatform
    rw [h]
  · intro osRaw archRaw h
    unfold detectCurrentPlatform
    rw [h]
    cases osMap osRaw <;> rfl
  · intro osRaw archRaw os arch h1 h2 hno
    unfold detectCurrentPlatform
    rw [h1, h2]
    apply List.find?_eq_none.mpr
    intro q hq hmatch
    rw [Bool.and_eq_true, beq_iff_eq, beq_iff_eq] at hmatch
    exact hno q hq hmatch

/-- Witness for `detector_pure_lookup` at concrete hosts: a catalog hit, an
unmapped OS, an unmapped arch, and the mapped-but-uncataloged `ia32` case. -/
theorem detector_pure_lookup_witness :
    detectCurrentPlatform "linux" "x64" = some ⟨"linux", "x64", "bun-linux-x64", ""⟩
    ∧ detectCurrentPlatform "freebsd" "x64" = none
    ∧ detectCurrentPlatform "linux" "mips" = none
    ∧ detectCurrentPlatform "linux" "ia32" = none :=
  ⟨detector_pure_lookup.1 "linux" "x64" ⟨"linux", "x64", "bun-linux-x64", ""⟩
      (by decide) (by decide) (by decide),
   detector_pure_lookup.2.1 "freebsd" "x64" (by decide),
   detector_pure_lookup.2.2.1 "linux" "mips" (by decide),
   detector_pure_lookup.2.2.2 "linux" "ia32" "linux" "x86"
      (by decide) (by decide) (by decide)⟩

/-! ## Claim C3: the builder's exception boundary -/

/-- C3 counterexample: the claim says `buildPlatform` never throws past its
boundary, directory-creation failures included; but `ensureBuildDir` is
invoked before the `try` block, so when `mkdirSync` throws (permission
denied) the exception propagates out of `buildPlatform`. -/
theorem builder_throws_on_mkdir_failure :
    buildPlatform envMkdirFail ⟨"linux", "x64", "bun-linux-x64", ""⟩ st0 =
      Except.error "EACCES: permission denied" := rfl

/-- C3 amended: once the build directory is available (it already exists or
`mkdirSync` succeeds), `buildPlatform` never throws: in particular every
compiler-invocation error is caught and converted into a failed outcome with
the error detail logged.  A directory-creation failure, by contrast,
propagates as an exception (see `builder_throws_on_mkdir_failure`). -/
theorem builder_catches_subprocess_errors (env : Env) (p : Platform) (s : St)
    (hdir : s.buildDirExists = true ∨ env.mkdirError = none) :
    (∃ b s', buildPlatform env p s = .ok (b, s'))
    ∧ (∀ e, env.compileResult (platformCall p) = .error e →
        ∃ s', buildPlatform env p s = .ok (false, s')
          ∧ (LogLevel.error, "构建出错: " ++ e) ∈ s'.msgs) := by
  obtain ⟨s', heq, _, _, _, herr⟩ := buildPlatform_spec env p s hdir
  refine ⟨⟨_, _, heq⟩, ?_⟩
  intro e he
  have hps : platformSucceeds env p = false := by simp [platformSucceeds, he]
  rw [hps] at heq
  exact ⟨s', heq, herr e he⟩

/-- Witness for `builder_catches_subprocess_errors`: a rejecting compiler. -/
theorem builder_catches_subprocess_errors_witness :
    (∃ b s', buildPlatform envAllFail ⟨"linux", "x64", "bun-linux-x64", ""⟩ st0 = .ok (b, s'))
    ∧ ∃ s', buildPlatform envAllFail ⟨"linux", "x64", "bun-linux-x64", ""⟩ st0 = .ok (false, s')
        ∧ (LogLevel.error, "构建出错: " ++ "bun build failed") ∈ s'.msgs :=
  ⟨(builder_catches_subprocess_errors envAllFail ⟨"linux", "x64", "bun-linux-x64", ""⟩ st0
      (Or.inr rfl)).1,
   (builder_catches_subprocess_errors envAllFail ⟨"linux", "x64", "bun-linux-x64", ""⟩ st0
      (Or.inr rfl)).2 "bun build failed" rfl⟩

/-! ## Claim C6: deterministic artifact paths -/

/-- C6: for every descriptor the compiler is invoked with outfile exactly
`build/pref-doctor-<os>-<arch><extension>`; concretely the linux/x64 entry
yields `build/pref-doctor-linux-x64` and the windows/x64 entry yields
`build/pref-doctor-windows-x64.exe`. -/
theorem artifact_path_deterministic :
    (∀ env p s, s.buildDirExists = true ∨ env.mkdirError = none →
      ∃ s', buildPlatform env p s = .ok (platformSucceeds env p, s')
        ∧ s'.calls = s.calls ++
            [⟨some p.target, "build/pref-doctor-" ++ p.os ++ "-" ++ p.arch ++ p.extension⟩])
    ∧ (⟨"linux", "x64", "bun-linux-x64", ""⟩ : Platform) ∈ PLATFORMS
    ∧ outputName ⟨"linux", "x64", "bun-linux-x64", ""⟩ = "build/pref-doctor-linux-x64"
    ∧ (⟨"windows", "x64", "bun-windows-x64", ".exe"⟩ : Platform) ∈ PLATFORMS
    ∧ outputName ⟨"windows", "x64", "bun-windows-x64", ".exe"⟩
        = "build/pref-doctor-windows-x64.exe" := by
  refine ⟨?_, by decide, by decide, by decide, by decide⟩
  intro env p s hdir
  obtain ⟨s', heq, _, hcalls, _, _⟩ := buildPlatform_spec env p s hdir
  exact ⟨s', heq, hcalls⟩

/-- Witness for `artifact_path_deterministic` on the linux/x64 entry. -/
theorem artifact_path_deterministic_witness :
    ∃ s', buildPlatform envOk ⟨"linux", "x64", "bun-linux-x64", ""⟩ st0 =
        .ok (platformSucceeds envOk ⟨"linux", "x64", "bun-linux-x64", ""⟩, s')
      ∧ s'.calls = st0.calls ++ [⟨some "bun-linux-x64", "build/pref-doctor-linux-x64"⟩] :=
  artifact_path_deterministic.1 envOk ⟨"linux", "x64", "bun-linux-x64", ""⟩ st0 (Or.inr rfl)

/-! ## Claim C8: best-effort size reporting -/

/-- C8: when the compiler reports exit status 0 but the artifact is absent
from disk, `buildPlatform` still returns a successful outcome and records no
size value. -/
theorem missing_artifact_still_success (env : Env) (p : Platform) (s : St)
    (hdir : s.buildDirExists = true)
    (hexit : env.compileResult ⟨some p.target, outputName p⟩ = .ok 0)
    (habsent : env.fileExists (outputName p) = false) :
    ∃ s', buildPlatform env p s = .ok (true, s') ∧ s'.sizeReports = s.sizeReports := by
  have h1 : ensureBuildDir env s = .ok s := by simp [ensureBuildDir, hdir]
  unfold buildPlatform
  rw [h1]
  simp [hexit, habsent]

/-- Witness for `missing_artifact_still_success`: success exit, no artifact. -/
theorem missing_artifact_still_success_witness :
    ∃ s', buildPlatform envNoArtifact ⟨"linux", "x64", "bun-linux-x64", ""⟩
        { st0 with buildDirExists := true } = .ok (true, s')
      ∧ s'.sizeReports = ({ st0 with buildDirExists := true } : St).sizeReports :=
  missing_artifact_still_success envNoArtifact ⟨"linux", "x64", "bun-linux-x64", ""⟩
    { st0 with buildDirExists := true } rfl rfl rfl

/-! ## Claim C4: the All-mode invariant -/

theorem countP_beq_length_eq_all (pred : Platform → Bool) (l : List Platform) :
    (l.countP pred == l.length) = l.all pred := by
  induction l with
  | nil => rfl
  | cons p rest ih =>
    cases hp : pred p
    · have hle := List.countP_le_length (p := pred) (l := rest)
      simp only [List.countP_cons, hp, List.all_cons, Bool.false_and, List.length_cons,
        if_false, Bool.false_eq_true, Nat.add_zero]
      rw [beq_eq_false_iff_ne]
      omega
    · simp only [List.countP_cons, hp, List.all_cons, Bool.true_and, List.length_cons,
      if_true]
      rw [← ih, Bool.eq_iff_iff]
      simp only [beq_iff_eq]
      omega

theorem buildAllLoop_spec (env : Env) (ps : List Platform) (c : Nat) (s : St)
    (hdir : s.buildDirExists = true ∨ env.mkdirError = none) :
    ∃ s', buildAllLoop env ps c s
        = .ok (c + ps.countP (fun p => platformSucceeds env p), s')
      ∧ s'.calls = s.calls ++ ps.map platformCall := by
  induction ps generalizing c s hdir with
  | nil => exact ⟨s, by simp [buildAllLoop], by simp⟩
  | cons p rest ih =>
    obtain ⟨s₁, heq, hb, hcalls, _, _⟩ := buildPlatform_spec env p s hdir
    obtain ⟨s₂, heq₂, hcalls₂⟩ := ih (if platformSucceeds env p then c + 1 else c)
        (addMsg .plain "" s₁) (Or.inl (by simp [hb]))
    refine ⟨s₂, ?_, ?_⟩
    · simp only [buildAllLoop, heq]
      rw [heq₂]
      have harith : (if platformSucceeds env p = true then c + 1 else c)
          + rest.countP (fun q => platformSucceeds env q)
          = c + (p :: rest).countP (fun q => platformSucceeds env q) := by
        cases hs : platformSucceeds env p
        · simp [List.countP_cons, hs]
        · simp [List.countP_cons, hs]
          omega
      rw [harith]
    · rw [hcalls₂]
      simp [hcalls, List.append_assoc]

/-- C4: in All mode the builder is invoked exactly once per catalog entry, in
declared order (the compiler-call trace equals `PLATFORMS.map platformCall`),
the loop continues past individual failures, the run is reported successful
iff every platform succeeded, and the tally printed is
`succeededCount/totalCount` with `succeededCount ≤ totalCount`. -/
theorem all_mode_invariant (env : Env) (s : St)
    (hdir : s.buildDirExists = true ∨ env.mkdirError = none) :
    ∃ s', buildAllPlatforms env s
        = .ok (PLATFORMS.all (fun p => platformSucceeds env p), s')
      ∧ s'.calls = s.calls ++ PLATFORMS.map platformCall
      ∧ (LogLevel.info, "构建完成: "
            ++ toString (PLATFORMS.countP (fun p => platformSucceeds env p))
            ++ "/" ++ toString PLATFORMS.length ++ " 个平台成功") ∈ s'.msgs
      ∧ PLATFORMS.countP (fun p => platformSucceeds env p) ≤ PLATFORMS.length := by
  obtain ⟨s₁, hloop, hcalls⟩ := buildAllLoop_spec env PLATFORMS 0
      (addMsg .info "开始构建所有支持的平台..." s) (by simpa using hdir)
  unfold buildAllPlatforms
  simp only [hloop, Nat.zero_add]
  rw [countP_beq_length_eq_all]
  cases hall : PLATFORMS.all fun p => platformSucceeds env p
  · rw [if_neg (by simp)]
    refine ⟨_, rfl, ?_, ?_, List.countP_le_length _⟩
    · simp only [addMsg_calls]
      rw [hcalls]
      simp
    · simp
  · rw [if_pos rfl]
    refine ⟨_, rfl, ?_, ?_, List.countP_le_length _⟩
    · simp only [addMsg_calls]
      rw [hcalls]
      simp
    · simp

/-- Witness for `all_mode_invariant` in the benign environment. -/
theorem all_mode_invariant_witness :
    ∃ s', buildAllPlatforms envOk st0
        = .ok (PLATFORMS.all (fun p => platformSucceeds envOk p), s')
      ∧ s'.calls = st0.calls ++ PLATFORMS.map platformCall
      ∧ (LogLevel.info, "构建完成: "
            ++ toString (PLATFORMS.countP (fun p => platformSucceeds envOk p))
            ++ "/" ++ toString PLATFORMS.length ++ " 个平台成功") ∈ s'.msgs
      ∧ PLATFORMS.countP (fun p => platformSucceeds envOk p) ≤ PLATFORMS.length :=
  all_mode_invariant envOk st0 (Or.inr rfl)

/-! ## CLI dispatch equations -/

theorem main_current_eq (env : Env) (osRaw archRaw : String) (s : St) :
    main env osRaw archRaw ["-c"] s =
      (match buildCurrentPlatform env osRaw archRaw
          (addMsg .plain "Pref Doctor 多平台构建脚本" s) with
       | .error e => .error e
       | .ok (_, s) => .ok (0, s)) := rfl

theorem main_noargs_eq (env : Env) (osRaw archRaw : String) (s : St) :
    main env osRaw archRaw [] s =
      (match buildCurrentPlatform env osRaw archRaw
          (addMsg .plain "Pref Doctor 多平台构建脚本" s) with
       | .error e => .error e
       | .ok (_, s) => .ok (0, s)) := rfl

theorem main_all_eq (env : Env) (osRaw archRaw : String) (s : St) :
    main env osRaw archRaw ["-a"] s =
      (match buildAllPlatforms env (addMsg .plain "Pref Doctor 多平台构建脚本" s) with
       | .error e => .error e
       | .ok (_, s) => .ok (0, s)) := rfl

theorem main_platform_eq (env : Env) (osRaw archRaw spec : String) (s : St)
    (hne : spec ≠ "") :
    main env osRaw archRaw ["-p", spec] s =
      (match buildSpecificPlatform env spec
          (addMsg .plain "Pref Doctor 多平台构建脚本" s) with
       | .error e => .error e
       | .ok (_, s) => .ok (0, s)) := by
  have h : main env osRaw archRaw ["-p", spec] s =
      (if spec = "" then
        .ok (1, addMsg .error "请指定平台 (格式: os-arch)"
          (addMsg .plain "Pref Doctor 多平台构建脚本" s))
      else
        match buildSpecificPlatform env spec
            (addMsg .plain "Pref Doctor 多平台构建脚本" s) with
        | .error e => .error e
        | .ok (_, s) => .ok (0, s)) := rfl
  rw [h, if_neg hne]

theorem main_platform_empty_eq (env : Env) (osRaw archRaw : String) (s : St) :
    main env osRaw archRaw ["-p", ""] s =
      .ok (1, addMsg .error "请指定平台 (格式: os-arch)"
        (addMsg .plain "Pref Doctor 多平台构建脚本" s)) := rfl

theorem main_clean_eq (env : Env) (osRaw archRaw : String) (s : St) :
    main env osRaw archRaw ["--clean"] s =
      .ok (0, cleanBuilds env (addMsg .plain "Pref Doctor 多平台构建脚本" s)) := rfl

/-! ## Claim C7: Current-mode fallback on detection failure -/

theorem currentFallback_ok (env : Env) (osRaw archRaw : String)
    (hdetect : detectCurrentPlatform osRaw archRaw = none) (s : St) :
    ∃ b s', buildCurrentPlatform env osRaw archRaw s = .ok (b, s') := by
  unfold buildCurrentPlatform
  simp only [hdetect]
  rcases hrun : ensureBuildDir env (addMsg .warning "无法检测当前平台，使用默认构建" s)
      with e | s₁
  · exact ⟨false, _, rfl⟩
  · rcases hcomp : env.compileResult ⟨none, "build/pref-doctor"⟩ with e | n
    · simp only [hcomp]
      exact ⟨false, _, rfl⟩
    · simp only [hcomp]
      exact ⟨true, _, rfl⟩

theorem currentFallback_calls (env : Env) (osRaw archRaw : String)
    (hdetect : detectCurrentPlatform osRaw archRaw = none) (s : St)
    (hdir : s.buildDirExists = true ∨ env.mkdirError = none) :
    ∃ b s', buildCurrentPlatform env osRaw archRaw s = .ok (b, s')
      ∧ s'.calls = s.calls ++ [⟨none, "build/pref-doctor"⟩] := by
  obtain ⟨s₁, hrun, _, hc, _, _⟩ := ensureBuildDir_spec env
      (addMsg .warning "无法检测当前平台，使用默认构建" s) (by simpa using hdir)
  unfold buildCurrentPlatform
  simp only [hdetect, hrun]
  rcases hcomp : env.compileResult ⟨none, "build/pref-doctor"⟩ with e | n
  · simp only [hcomp]
    refine ⟨false, _, rfl, ?_⟩
    simp [hc]
  · simp only [hcomp]
    refine ⟨true, _, rfl, ?_⟩
    simp [hc]

/-- C7: in Current mode, when detection returns "not found" the orchestrator
does not abort: the run never surfaces a hard error (exit 0 both for `-c` and
for no leading token), and—whenever the build directory can be
ensured—exactly one bare compiler invocation is performed, with no target
identifier, to the default output path `build/pref-doctor`. -/
theorem current_mode_detection_fallback (env : Env) (osRaw archRaw : String) (s : St)
    (hdetect : detectCurrentPlatform osRaw archRaw = none) :
    (∃ b s', buildCurrentPlatform env osRaw archRaw s = .ok (b, s'))
    ∧ ((s.buildDirExists = true ∨ env.mkdirError = none) →
        ∃ b s', buildCurrentPlatform env osRaw archRaw s = .ok (b, s')
          ∧ s'.calls = s.calls ++ [⟨none, "build/pref-doctor"⟩])
    ∧ (runScript env osRaw archRaw ["-c"] s).1 = 0
    ∧ (runScript env osRaw archRaw [] s).1 = 0 := by
  refine ⟨currentFallback_ok env osRaw archRaw hdetect s,
    fun hdir => currentFallback_calls env osRaw archRaw hdetect s hdir, ?_, ?_⟩
  · obtain ⟨b, s', heq⟩ := currentFallback_ok env osRaw archRaw hdetect
        (addMsg .plain "Pref Doctor 多平台构建脚本" s)
    unfold runScript
    rw [main_current_eq, heq]
  · obtain ⟨b, s', heq⟩ := currentFallback_ok env osRaw archRaw hdetect
        (addMsg .plain "Pref Doctor 多平台构建脚本" s)
    unfold runScript
    rw [main_noargs_eq, heq]

/-- Witness for `current_mode_detection_fallback`: an unmapped host OS. -/
theorem current_mode_detection_fallback_witness :
    ((∃ b s', buildCurrentPlatform envOk "freebsd" "x64" st0 = .ok (b, s'))
    ∧ ((st0.buildDirExists = true ∨ envOk.mkdirError = none) →
        ∃ b s', buildCurrentPlatform envOk "freebsd" "x64" st0 = .ok (b, s')
          ∧ s'.calls = st0.calls ++ [⟨none, "build/pref-doctor"⟩])
    ∧ (runScript envOk "freebsd" "x64" ["-c"] st0).1 = 0
    ∧ (runScript envOk "freebsd" "x64" [] st0).1 = 0)
    ∧ ∃ b s', buildCurrentPlatform envOk "freebsd" "x64" st0 = .ok (b, s')
        ∧ s'.calls = st0.calls ++ [⟨none, "build/pref-doctor"⟩] :=
  ⟨current_mode_detection_fallback envOk "freebsd" "x64" st0 rfl,
   (current_mode_detection_fallback envOk "freebsd" "x64" st0 rfl).2.1 (Or.inr rfl)⟩

/-! ## Claim C9: Clean is idempotent and best-effort -/

/-- C9: `--clean` always exits 0 (also when invoked twice in a row, the
directory being absent the second time), removing the directory tree is
idempotent on the filesystem state, a missing directory is not an error, and
a removal failure is reported only as a warning. -/
theorem clean_idempotent_best_effort (env : Env) (osRaw archRaw : String) (s : St) :
    (runScript env osRaw archRaw ["--clean"] s).1 = 0
    ∧ (runScript env osRaw archRaw ["--clean"]
        ((runScript env osRaw archRaw ["--clean"] s).2)).1 = 0
    ∧ (cleanBuilds env (cleanBuilds env s)).buildDirExists
        = (cleanBuilds env s).buildDirExists
    ∧ (env.rmResult = .ok 0 → (cleanBuilds env s).buildDirExists = false)
    ∧ (∀ e, env.rmResult = .error e →
        (LogLevel.warning, "清理时出现错误: " ++ e) ∈ (cleanBuilds env s).msgs) := by
  refine ⟨?_, ?_, ?_, ?_, ?_⟩
  · unfold runScript
    rw [main_clean_eq]
  · unfold runScript
    rw [main_clean_eq]
  · unfold cleanBuilds
    rcases hrm : env.rmResult with e | n
    · simp
    · by_cases hn : (n == 0) = true
      · simp [hn]
      · rw [Bool.not_eq_true] at hn
        simp [hn]
  · intro h0
    unfold cleanBuilds
    rw [h0]
    simp
  · intro e he
    unfold cleanBuilds
    rw [he]
    simp

/-- Witness for `clean_idempotent_best_effort`: benign and failing removal. -/
theorem clean_idempotent_best_effort_witness :
    ((runScript envOk "linux" "x64" ["--clean"] st0).1 = 0
      ∧ (cleanBuilds envOk st0).buildDirExists = false)
    ∧ (LogLevel.warning, "清理时出现错误: " ++ "EBUSY: resource busy")
        ∈ (cleanBuilds envRmFail st0).msgs :=
  ⟨⟨(clean_idempotent_best_effort envOk "linux" "x64" st0).1,
    (clean_idempotent_best_effort envOk "linux" "x64" st0).2.2.2.1 rfl⟩,
   (clean_idempotent_best_effort envRmFail "linux" "x64" st0).2.2.2.2
      "EBUSY: resource busy" rfl⟩

/-! ## Claim C2: unknown specifiers -/

theorem printAux_calls (l : List Platform) (s : St) :
    (l.foldl (fun s p => addMsg .plain ("  - " ++ p.os ++ "-" ++ p.arch) s) s).calls
      = s.calls := by
  induction l generalizing s with
  | nil => rfl
  | cons p rest ih =>
    rw [List.foldl_cons, ih]
    rfl

theorem printAux_mem (l : List Platform) (s : St) (m : LogLevel × String)
    (hm : m ∈ s.msgs) :
    m ∈ (l.foldl (fun s p => addMsg .plain ("  - " ++ p.os ++ "-" ++ p.arch) s) s).msgs := by
  induction l generalizing s with
  | nil => exact hm
  | cons p rest ih =>
    rw [List.foldl_cons]
    refine ih _ ?_
    simp only [addMsg_msgs, List.mem_append]
    exact Or.inl hm

theorem printAux_mem_self (l : List Platform) (s : St) (p : Platform) (hp : p ∈ l) :
    (LogLevel.plain, "  - " ++ p.os ++ "-" ++ p.arch)
      ∈ (l.foldl (fun s q => addMsg .plain ("  - " ++ q.os ++ "-" ++ q.arch) s) s).msgs := by
  induction l generalizing s with
  | nil => cases hp
  | cons q rest ih =>
    rw [List.foldl_cons]
    rcases List.mem_cons.mp hp with h | h
    · subst h
      refine printAux_mem rest _ _ ?_
      simp only [addMsg_msgs, List.mem_append, List.mem_singleton]
      exact Or.inr trivial
    · exact ih _ h

theorem buildSpecific_unknown (env : Env) (spec : String) (s : St)
    (hmiss : PLATFORMS.find? (fun p => p.os == (splitOnDash spec).getD 0 ""
        && some p.arch == (splitOnDash spec).get? 1) = none) :
    ∃ s', buildSpecificPlatform env spec s = .ok (false, s')
      ∧ s'.calls = s.calls
      ∧ (LogLevel.error, "不支持的平台: " ++ spec) ∈ s'.msgs
      ∧ ∀ p ∈ PLATFORMS, (LogLevel.plain, "  - " ++ p.os ++ "-" ++ p.arch) ∈ s'.msgs := by
  unfold buildSpecificPlatform buildSpecificCore
  simp only [hmiss]
  refine ⟨_, rfl, ?_, ?_, ?_⟩
  · unfold printSupportedList
    rw [printAux_calls]
    rfl
  · unfold printSupportedList
    refine printAux_mem PLATFORMS _ _ ?_
    simp only [addMsg_msgs, List.mem_append, List.mem_singleton]
    left
    exact Or.inr trivial
  · intro p hp
    unfold printSupportedList
    exact printAux_mem_self PLATFORMS _ p hp

/-- C2: for every specifier string not matching any catalog entry,
`buildSpecificPlatform` reports the error together with the list of all
valid specifiers and performs zero builder invocations; however, for every
such non-empty specifier the process then exits 0, not non-zero, because
`main` discards the returned failure flag.  The empty-string argument never
reaches `buildSpecificPlatform`: the falsy `if (!args[1])` guard prints the
missing-argument error and exits 1. -/
theorem unknown_specifier_no_build (env : Env) (spec osRaw archRaw : String) (s : St)
    (hmiss : PLATFORMS.find? (fun p => p.os == (splitOnDash spec).getD 0 ""
        && some p.arch == (splitOnDash spec).get? 1) = none) :
    (∃ s', buildSpecificPlatform env spec s = .ok (false, s')
      ∧ s'.calls = s.calls
      ∧ (LogLevel.error, "不支持的平台: " ++ spec) ∈ s'.msgs
      ∧ ∀ p ∈ PLATFORMS, (LogLevel.plain, "  - " ++ p.os ++ "-" ++ p.arch) ∈ s'.msgs)
    ∧ (spec ≠ "" → (runScript env osRaw archRaw ["-p", spec] s).1 = 0)
    ∧ (runScript env osRaw archRaw ["-p", ""] s)
        = (1, addMsg .error "请指定平台 (格式: os-arch)"
            (addMsg .plain "Pref Doctor 多平台构建脚本" s)) := by
  refine ⟨buildSpecific_unknown env spec s hmiss, ?_, ?_⟩
  · intro hne
    obtain ⟨s', heq, -, -, -⟩ := buildSpecific_unknown env spec
        (addMsg .plain "Pref Doctor 多平台构建脚本" s) hmiss
    unfold runScript
    rw [main_platform_eq env osRaw archRaw spec s hne, heq]
  · unfold runScript
    rw [main_platform_empty_eq]

/-- Witness for `unknown_specifier_no_build` at specifier `foo-bar`. -/
theorem unknown_specifier_no_build_witness :
    (∃ s', buildSpecificPlatform envOk "foo-bar" st0 = .ok (false, s')
      ∧ s'.calls = st0.calls
      ∧ (LogLevel.error, "不支持的平台: " ++ "foo-bar") ∈ s'.msgs
      ∧ ∀ p ∈ PLATFORMS, (LogLevel.plain, "  - " ++ p.os ++ "-" ++ p.arch) ∈ s'.msgs)
    ∧ (runScript envOk "linux" "x64" ["-p", "foo-bar"] st0).1 = 0
    ∧ (runScript envOk "linux" "x64" ["-p", ""] st0).1 = 1 :=
  ⟨(unknown_specifier_no_build envOk "foo-bar" "linux" "x64" st0 (by decide)).1,
   (unknown_specifier_no_build envOk "foo-bar" "linux" "x64" st0 (by decide)).2.1
      (by decide),
   by rw [(unknown_specifier_no_build envOk "foo-bar" "linux" "x64" st0
      (by decide)).2.2]⟩

/-! ## Claim C1: exit status of the build modes -/

/-- C1 is violated by the code: `main` awaits the build functions but
discards their boolean results and never calls `process.exit(1)` on a build
failure.  In an environment where every compiler invocation fails, All mode
reports a failed run (`buildAllPlatforms` returns `false`) yet the process
exits 0; the same holds for Current mode (no token) and for `-p` with the
known platform `linux-x64`. -/
theorem build_failure_exits_zero :
    (runScript envAllFail "linux" "x64" ["-a"] st0).1 = 0
    ∧ (∃ s', buildAllPlatforms envAllFail st0 = .ok (false, s'))
    ∧ (runScript envAllFail "linux" "x64" [] st0).1 = 0
    ∧ (∃ s', buildCurrentPlatform envAllFail "linux" "x64" st0 = .ok (false, s'))
    ∧ (runScript envAllFail "linux" "x64" ["-p", "linux-x64"] st0).1 = 0
    ∧ (∃ s', buildSpecificPlatform envAllFail "linux-x64" st0 = .ok (false, s')) :=
  ⟨rfl, ⟨_, rfl⟩, rfl, ⟨_, rfl⟩, rfl, ⟨_, rfl⟩⟩

/-! ## Claim C10: extra trailing specifier segments -/

/-- C10: `buildSpecificPlatform` destructures only the first two
dash-separated components of the specifier, so a specifier with extra
trailing segments still matches its catalog entry: for every tail `rest`,
the parts list `linux :: x64 :: rest` resolves to the linux/x64 entry, and
concretely the specifier `linux-x64-anything` builds linux/x64 instead of
being rejected. -/
theorem specifier_uses_first_two_segments (env : Env) (spec : String) (s : St)
    (rest : List String) :
    buildSpecificCore env spec ("linux" :: "x64" :: rest) s
        = buildPlatform env ⟨"linux", "x64", "bun-linux-x64", ""⟩ s
    ∧ splitOnDash "linux-x64-anything" = ["linux", "x64", "anything"]
    ∧ buildSpecificPlatform env "linux-x64-anything" s
        = buildPlatform env ⟨"linux", "x64", "bun-linux-x64", ""⟩ s :=
  ⟨rfl, by decide, rfl⟩

end PerfDoctor
